import Mathlib

/-!
Verification of the multi-slice CT generation and PACS transmission pipeline.

This file gives a shallow embedding of the pipeline scripts
(`create-multislice-ct.py`, `upload-multislice-ct.py`, `dicom-test-sender.py`)
and proves properties of the embedded definitions.

Modelling conventions:
* Python float arithmetic on the small quantities involved (radii, spacings,
  thresholds) is modelled by exact rational arithmetic over `ℚ`; all the
  values appearing are far from any rounding boundary.
* The hidden inputs of the scripts — the fresh-UID generator (`generate_uid`),
  the wall clock (`time.time()` / `datetime.now()`), the per-pixel random
  jitter (`np.random.randint`), and the network (association establishment,
  C-STORE/C-ECHO status) — are made explicit parameters, so every definition
  is a pure function of its inputs.
* UIDs and clock readings are modelled as natural numbers: `generate_uid`
  consumes a counter state and returns the current value, advancing the state.
-/

namespace MultisliceCT

/-! ## Slice geometry (`create_ct_slice`, spatial metadata section)

From `create-multislice-ct.py` lines 70–80 (identically `upload-multislice-ct.py`):
`SliceThickness = 2.0`, `SliceLocation = slice_number * 2.0`,
`ImagePositionPatient = [0, 0, slice_number * 2.0]`,
`ImageOrientationPatient = [1, 0, 0, 0, 1, 0]`, `PixelSpacing = [0.7, 0.7]`. -/

/-- The configured inter-slice spacing: `2.0` mm ("2mm spacing" in the source). -/
def sliceSpacing : ℚ := 2

/-- Spatial metadata carried by one slice. -/
structure SliceGeometry where
  position : ℚ × ℚ × ℚ
  orientation : List ℚ
  pixSpacing : ℚ × ℚ
  thickness : ℚ
  sliceLocation : ℚ
  deriving DecidableEq, Repr

/-- The spatial metadata emitted by `create_ct_slice` for slice `slice_number`. -/
def sliceGeometry (slice_number : ℕ) : SliceGeometry :=
  { position := (0, 0, (slice_number : ℚ) * 2)
    orientation := [1, 0, 0, 0, 1, 0]
    pixSpacing := (7/10, 7/10)
    thickness := 2
    sliceLocation := (slice_number : ℚ) * 2 }

/-! ## Body-boundary radius (`create_ct_slice`, pixel-data section)

`radius = 150 + (slice_number / total_slices) * 50` and
`inner_radius = radius * 0.7`. -/

/-- `radius = 150 + (slice_number / total_slices) * 50`. -/
def radius (slice_number total_slices : ℕ) : ℚ :=
  150 + ((slice_number : ℚ) / (total_slices : ℚ)) * 50

/-- `inner_radius = radius * 0.7`. -/
def innerRadius (slice_number total_slices : ℕ) : ℚ :=
  radius slice_number total_slices * (7/10)

/-- The base of the radius interpolation (the value approached as
`slice_number/total_slices → 0`). -/
def baseRadius : ℚ := 150

/-- The top of the radius interpolation, reached at `slice_number = total_slices`. -/
def maxRadius : ℚ := 200

/-! ## Pixel synthesis (`create_ct_slice`, pixel-data section)

The script fills a `total` grid in five sequential array assignments:
1. `pixel_array = np.full(image_size, -500)` (base tissue);
2. `pixel_array[inner_mask] = -800 + np.random.randint(-50, 50, ...)`;
3. `pixel_array[outer_mask] = 50 + np.random.randint(-50, 150, ...)` where
   `outer_mask = mask & ~inner_mask`;
4. for each of 6 rib disks, `pixel_array[rib_mask] = 500 + np.random.randint(-100, 300, ...)`;
5. `pixel_array[~mask] = -1000` (outside body: air).

`mask` is `(x-cx)^2 + (y-cy)^2 <= radius^2` from the grid center
`(rows // 2, cols // 2)`; rib disks are `(x-rx)^2 + (y-ry)^2 <= 100` around
centers placed on a circle of radius `radius * 0.85`.  The rib centers involve
float trigonometry (`cos`/`sin`), so they enter the model as an explicit list
of integer centers; every claim proved below holds for an arbitrary such list.
The per-pixel jitter draws are an explicit jitter source. -/

/-- Squared Euclidean distance between two integer grid points. -/
def distSq (p c : ℤ × ℤ) : ℤ :=
  (p.1 - c.1) ^ 2 + (p.2 - c.2) ^ 2

/-- The per-pixel random draws of `np.random.randint` for the three jittered
bands, as explicit functions of the pixel. -/
structure JitterSource where
  jInner : ℤ × ℤ → ℤ
  jOuter : ℤ × ℤ → ℤ
  jRib : ℤ × ℤ → ℤ

/-- `js.Bounded` states the ranges of the three `np.random.randint` calls:
`randint(-50, 50)`, `randint(-50, 150)`, `randint(-100, 300)` (upper bound
exclusive). -/
def JitterSource.Bounded (js : JitterSource) : Prop :=
  (∀ p, -50 ≤ js.jInner p ∧ js.jInner p < 50) ∧
  (∀ p, -50 ≤ js.jOuter p ∧ js.jOuter p < 150) ∧
  (∀ p, -100 ≤ js.jRib p ∧ js.jRib p < 300)

/-- Grid center `(rows // 2, cols // 2)` (integer floor division as in the
source's `image_size[0] // 2`). -/
def gridCenter (image_size : ℕ × ℕ) : ℤ × ℤ :=
  ((image_size.1 / 2 : ℕ), (image_size.2 / 2 : ℕ))

/-- `mask`: the pixel lies within the body boundary. -/
def inMask (slice_number total_slices : ℕ) (image_size : ℕ × ℕ) (p : ℤ × ℤ) : Prop :=
  (distSq p (gridCenter image_size) : ℚ) ≤ (radius slice_number total_slices) ^ 2

/-- `inner_mask`: the pixel lies within the inner (lung) region. -/
def inInnerMask (slice_number total_slices : ℕ) (image_size : ℕ × ℕ) (p : ℤ × ℤ) : Prop :=
  (distSq p (gridCenter image_size) : ℚ) ≤ (innerRadius slice_number total_slices) ^ 2

/-- Membership in some rib disk: `(x-rx)^2 + (y-ry)^2 <= 100`. -/
def inRibMask (ribCenters : List (ℤ × ℤ)) (p : ℤ × ℤ) : Prop :=
  ∃ rc ∈ ribCenters, distSq p rc ≤ 100

instance (n N : ℕ) (d : ℕ × ℕ) (p : ℤ × ℤ) : Decidable (inMask n N d p) := by
  unfold inMask; infer_instance

instance (n N : ℕ) (d : ℕ × ℕ) (p : ℤ × ℤ) : Decidable (inInnerMask n N d p) := by
  unfold inInnerMask; infer_instance

instance (rcs : List (ℤ × ℤ)) (p : ℤ × ℤ) : Decidable (inRibMask rcs p) := by
  unfold inRibMask; infer_instance

/-- The final value of one pixel after the five sequential array assignments
of `create_ct_slice`. -/
def pixelValue (slice_number total_slices : ℕ) (image_size : ℕ × ℕ)
    (ribCenters : List (ℤ × ℤ)) (js : JitterSource) (p : ℤ × ℤ) : ℤ :=
  let v0 : ℤ := -500
  let v1 := if inInnerMask slice_number total_slices image_size p
    then -800 + js.jInner p else v0
  let v2 := if inMask slice_number total_slices image_size p ∧
      ¬ inInnerMask slice_number total_slices image_size p
    then 50 + js.jOuter p else v1
  let v3 := if inRibMask ribCenters p then 500 + js.jRib p else v2
  if ¬ inMask slice_number total_slices image_size p then -1000 else v3

/-- The four regions a pixel can end up in. -/
inductive Region where
  | background
  | highDensity
  | inner
  | outer
  deriving DecidableEq, Repr

/-- The region that determines a pixel's final value, reading the assignment
sequence backwards: the air assignment (step 5) wins outside the body mask,
then the rib overlay (step 4), then inner (step 2), else the outer ring
(step 3). -/
def region (slice_number total_slices : ℕ) (image_size : ℕ × ℕ)
    (ribCenters : List (ℤ × ℤ)) (p : ℤ × ℤ) : Region :=
  if ¬ inMask slice_number total_slices image_size p then .background
  else if inRibMask ribCenters p then .highDensity
  else if inInnerMask slice_number total_slices image_size p then .inner
  else .outer

/-- The density band of each region, as produced by the source's base value
plus its `randint` jitter range: background `= -1000`; inner
`-800 + [-50,50)`; outer `50 + [-50,150)`; structure `500 + [-100,300)`. -/
def inBand : Region → ℤ → Prop
  | .background, v => v = -1000
  | .inner, v => -850 ≤ v ∧ v < -750
  | .outer, v => 0 ≤ v ∧ v < 200
  | .highDensity, v => 400 ≤ v ∧ v < 800

instance (r : Region) (v : ℤ) : Decidable (inBand r v) := by
  cases r <;> (unfold inBand; infer_instance)

/-! ## `send_dicom_to_orthanc` (`create-multislice-ct.py`)

```
try:
    ae = AE(...); ae.requested_contexts = StoragePresentationContexts
    assoc = ae.associate(host, port, ae_title=orthanc_aet)
    if assoc.is_established:
        status = assoc.send_c_store(dicom_dataset)
        assoc.release()
        if status and status.Status == 0x0000: return True
        else: return False
    else:
        return False
except Exception as e:
    return False
```

The network's behaviour during one call is an explicit parameter: the
association is either refused, or established and then `send_c_store` either
raises or returns a status (`none` models a falsy status object, the
"connection closed" case). -/

/-- What `send_c_store` does on an established association. -/
inductive SendOutcome where
  | raises
  | returns (status : Option ℕ)
  deriving DecidableEq, Repr

/-- What the association attempt does during one `store` call. -/
inductive AssocOutcome where
  | refused
  | established (send : SendOutcome)
  deriving DecidableEq, Repr

/-- Observable result of one `send_dicom_to_orthanc` call: the returned
boolean, and whether `assoc.release()` was executed before returning. -/
structure StoreCallResult where
  result : Bool
  released : Bool
  deriving DecidableEq, Repr

/-- `send_dicom_to_orthanc` of `create-multislice-ct.py`, with the release
action made observable.  An exception from `send_c_store` transfers control
to the `except` handler, skipping the `assoc.release()` line. -/
def send_dicom_to_orthanc (a : AssocOutcome) : StoreCallResult :=
  match a with
  | .refused => { result := false, released := false }
  | .established send =>
    match send with
    | .raises => { result := false, released := false }
    | .returns status =>
      match status with
      | some st => { result := st = 0, released := true }
      | none => { result := false, released := true }

/-! ## `test_orthanc_echo` (`dicom-test-sender.py`)

Opens an association for verification; if established, sends C-ECHO, releases,
and returns truthiness of the status; if not established or on exception,
returns `False`. -/

/-- Behaviour of the network during one `test_orthanc_echo` call. -/
inductive EchoOutcome where
  | raises
  | notEstablished
  | established (statusTruthy : Bool)
  deriving DecidableEq, Repr

/-- `test_orthanc_echo`: a boolean predicate, false (not an exception) on any
refusal, failure status, or exception. -/
def test_orthanc_echo (e : EchoOutcome) : Bool :=
  match e with
  | .raises => false
  | .notEstablished => false
  | .established statusTruthy => statusTruthy

/-! ## The per-slice loop of `main` (`create-multislice-ct.py` and
`upload-multislice-ct.py`)

```
successful = 0
failed = 0
for slice_num in range(1, NUM_SLICES + 1):
    dicom_slice = create_ct_slice(...)
    if send_dicom_to_orthanc(dicom_slice, ...): successful += 1
    else: failed += 1
```
(`upload-multislice-ct.py` has the identical counter structure with
`upload_dicom_to_backend` in place of `send_dicom_to_orthanc`.)
The outcome of the store/upload call for slice `i` is the explicit parameter
`storeOk i`; an exception inside the transport is caught there and surfaces
as `False`, so the loop body never raises. -/

/-- The counter loop of `main`: fold over `slice_num = 1..numSlices`,
incrementing exactly one of (successful, failed) per iteration. -/
def mainLoop (storeOk : ℕ → Bool) (numSlices : ℕ) : ℕ × ℕ :=
  (List.range numSlices).foldl
    (fun acc k =>
      let slice_num := k + 1
      if storeOk slice_num then (acc.1 + 1, acc.2) else (acc.1, acc.2 + 1))
    (0, 0)

/-- The verdict branch of `create-multislice-ct.py`:
`if successful == NUM_SLICES:` success banner `else:` warning banner.  There
are exactly these two branches. -/
inductive CtVerdict where
  | fullSuccess
  | warning
  deriving DecidableEq, Repr

/-- `create-multislice-ct.py` verdict: full success iff every slice was sent. -/
def ctVerdict (numSlices successful : ℕ) : CtVerdict :=
  if successful = numSlices then .fullSuccess else .warning

/-- The verdict branch of `upload-multislice-ct.py`:
`if successful >= NUM_SLICES * 0.9:` success banner `else:` warning banner. -/
inductive UploadVerdict where
  | success
  | warning
  deriving DecidableEq, Repr

/-- `upload-multislice-ct.py` verdict: success iff at least 90% uploaded. -/
def uploadVerdict (numSlices successful : ℕ) : UploadVerdict :=
  if (numSlices : ℚ) * (9/10) ≤ (successful : ℚ) then .success else .warning

/-! ## `main` of `dicom-test-sender.py`

```
if not test_orthanc_echo(...):
    ...
    sys.exit(1)
...
for i, study_config in enumerate(test_studies, 1):
    dicom_dataset = create_test_dicom(**study_config)
    if send_dicom_to_orthanc(...): successful += 1
    else: failed += 1
```
The store outcomes of the studies the run would attempt are the list
`storeResults`; one C-STORE call is made per loop iteration. -/

/-- Observable outcome of a `dicom-test-sender.py` run. -/
structure SenderRun where
  attempted : ℕ
  succeeded : ℕ
  failed : ℕ
  storeCalls : ℕ
  abortedEarly : Bool
  deriving DecidableEq, Repr

/-- `main` of `dicom-test-sender.py`: pre-flight C-ECHO, then one store per
study.  If the echo predicate is false the process exits (`sys.exit(1)`)
before the loop: no study is attempted and no store call is made. -/
def dicomTestSenderMain (echo : EchoOutcome) (storeResults : List Bool) : SenderRun :=
  if ¬ test_orthanc_echo echo then
    { attempted := 0, succeeded := 0, failed := 0, storeCalls := 0, abortedEarly := true }
  else
    let counts := storeResults.foldl
      (fun acc ok => if ok then (acc.1 + 1, acc.2) else (acc.1, acc.2 + 1)) (0, 0)
    { attempted := storeResults.length
      succeeded := counts.1
      failed := counts.2
      storeCalls := storeResults.length
      abortedEarly := false }

/-! ## Metadata of `create_ct_slice` (`create-multislice-ct.py` lines 16–80)

The dataset fields relevant to identity and determinism.  `generate_uid()`
draws a fresh UID per call; it is modelled by a counter state: the call
returns the state and advances it.  `create_ct_slice` calls it twice, in
source order: first for `sop_uid`, then for `ImplementationClassUID`.
`int(time.time())` and `datetime.now()` are modelled by the reading `clock`
(seconds); the date and time-of-day strings become `clock / 86400` and
`clock % 86400`. -/

/-- The header/metadata fields of one generated slice. -/
structure CtSliceMeta where
  mediaStorageSOPInstanceUID : ℕ
  implementationClassUID : ℕ
  patientName : String
  patientID : String
  patientBirthDate : String
  patientSex : String
  studyInstanceUID : ℕ
  studyDate : ℕ
  studyTime : ℕ
  studyDescription : String
  studyID : String
  seriesInstanceUID : ℕ
  seriesNumber : ℕ
  seriesDescription : String
  modality : String
  sopInstanceUID : ℕ
  instanceNumber : ℕ
  geometry : SliceGeometry
  deriving DecidableEq, Repr

/-- The metadata part of `create_ct_slice`, with the UID-generator state and
the wall clock explicit.  Returns the dataset fields and the advanced UID
state. -/
def create_ct_slice (study_uid series_uid slice_number total_slices : ℕ)
    (patient_name : String) (uidState clock : ℕ) : CtSliceMeta × ℕ :=
  let sop_uid := uidState
  let implementation_uid := uidState + 1
  ({ mediaStorageSOPInstanceUID := sop_uid
     implementationClassUID := implementation_uid
     patientName := patient_name
     patientID := "CT3D" ++ toString clock
     patientBirthDate := "19750515"
     patientSex := "M"
     studyInstanceUID := study_uid
     studyDate := clock / 86400
     studyTime := clock % 86400
     studyDescription := "CT Chest Multi-Slice for 3D Rendering"
     studyID := "CT3D001"
     seriesInstanceUID := series_uid
     seriesNumber := 1
     seriesDescription := "Chest CT Axial"
     modality := "CT"
     sopInstanceUID := sop_uid
     instanceNumber := slice_number
     geometry := sliceGeometry slice_number },
   uidState + 2)

/-! ## Helper lemmas -/

/-- Unfolding one iteration of the per-slice counter loop. -/
theorem mainLoop_succ (storeOk : ℕ → Bool) (n : ℕ) :
    mainLoop storeOk (n + 1) =
      (if storeOk (n + 1) then ((mainLoop storeOk n).1 + 1, (mainLoop storeOk n).2)
       else ((mainLoop storeOk n).1, (mainLoop storeOk n).2 + 1)) := by
  unfold mainLoop
  rw [List.range_succ, List.foldl_append]
  simp

/-- A run whose every store call fails counts zero successes and `N` failures. -/
theorem mainLoop_all_fail (N : ℕ) : mainLoop (fun _ => false) N = (0, N) := by
  induction N with
  | zero => rfl
  | succ n ih => rw [mainLoop_succ, ih]; simp

/-- The boundary radius is monotone non-decreasing in the slice index. -/
theorem radius_monotone (i j total_slices : ℕ) (hN : 0 < total_slices)
    (hij : i ≤ j) : radius i total_slices ≤ radius j total_slices := by
  unfold radius
  have hN' : (0 : ℚ) < (total_slices : ℚ) := by exact_mod_cast hN
  have hij' : (i : ℚ) ≤ (j : ℚ) := by exact_mod_cast hij
  gcongr

/-- A constant (zero) jitter source, used to instantiate witnesses. -/
def zeroJitter : JitterSource :=
  { jInner := fun _ => 0, jOuter := fun _ => 0, jRib := fun _ => 0 }

/-- The zero jitter source satisfies the `randint` bounds. -/
theorem zeroJitter_bounded : zeroJitter.Bounded :=
  ⟨fun _ => by norm_num [zeroJitter], fun _ => by norm_num [zeroJitter],
   fun _ => by norm_num [zeroJitter]⟩

/-! ## Claim theorems -/

/-- Claim C1: if the pre-flight connectivity check (`test_orthanc_echo`, a
DICOM C-ECHO) returns false, the run aborts immediately (`sys.exit(1)`):
zero C-STORE calls are made and zero studies are attempted. -/
theorem C1_echo_false_aborts_run (e : EchoOutcome) (storeResults : List Bool)
    (h : test_orthanc_echo e = false) :
    (dicomTestSenderMain e storeResults).storeCalls = 0 ∧
    (dicomTestSenderMain e storeResults).attempted = 0 ∧
    (dicomTestSenderMain e storeResults).abortedEarly = true := by
  unfold dicomTestSenderMain
  rw [h]
  simp

/-- Claim C1, witness: a refused verification association makes
`test_orthanc_echo` false, and the run then attempts nothing. -/
theorem C1_witness :
    test_orthanc_echo .notEstablished = false ∧
    ((dicomTestSenderMain .notEstablished [true, false]).storeCalls = 0 ∧
     (dicomTestSenderMain .notEstablished [true, false]).attempted = 0 ∧
     (dicomTestSenderMain .notEstablished [true, false]).abortedEarly = true) :=
  ⟨rfl, C1_echo_false_aborts_run .notEstablished [true, false] rfl⟩

/-- Claim C2, counterexample: when `send_c_store` raises on an established
association, control jumps to the `except` handler and `assoc.release()` is
never executed, so the opened association is not released on that exit
path. -/
theorem C2_counterexample_exception_skips_release :
    (send_dicom_to_orthanc (.established .raises)).released = false := rfl

/-- Claim C2, amended: `send_dicom_to_orthanc` releases the association
exactly on the paths where the association was established and
`send_c_store` returned (any status, success or not); a refused association
and an exception raised during transmission both return without an explicit
release. -/
theorem C2_release_iff_send_returned (a : AssocOutcome) :
    (send_dicom_to_orthanc a).released = true ↔
      ∃ status, a = .established (.returns status) := by
  cases a with
  | refused => simp [send_dicom_to_orthanc]
  | established send =>
    cases send with
    | raises => simp [send_dicom_to_orthanc]
    | returns status => cases status <;> simp [send_dicom_to_orthanc]

/-- Claim C3: slice `i` carries position `(0, 0, i * spacing)` with
spacing `2.0`, so the normal-axis positions form an arithmetic progression
with common difference `sliceSpacing` starting at `1 * sliceSpacing`, while
orientation, pixel spacing and slice thickness do not depend on the slice
index. -/
theorem C3_positions_arithmetic_progression (i j : ℕ) :
    (sliceGeometry i).position = (0, 0, (i : ℚ) * sliceSpacing) ∧
    (sliceGeometry (i + 1)).position.2.2 - (sliceGeometry i).position.2.2
      = sliceSpacing ∧
    (sliceGeometry 1).position.2.2 = 1 * sliceSpacing ∧
    (sliceGeometry i).orientation = (sliceGeometry j).orientation ∧
    (sliceGeometry i).pixSpacing = (sliceGeometry j).pixSpacing ∧
    (sliceGeometry i).thickness = (sliceGeometry j).thickness := by
  refine ⟨rfl, ?_, ?_, rfl, rfl, rfl⟩
  · simp only [sliceGeometry, sliceSpacing]
    push_cast
    ring
  · simp [sliceGeometry, sliceSpacing]

/-- Claim C4: a pixel's final region is determined by the Euclidean
distance thresholds (body mask from the grid center, inner mask from the
grid center, structure disks from the rib centers), the body-boundary
radius is monotone non-decreasing in the slice index, and the final pixel
value lies in the density band of its region: background `= -1000`, inner
`-800 ± randint(-50,50)`, outer `50 + randint(-50,150)`, structure
`500 + randint(-100,300)`. -/
theorem C4_pixel_regions_and_bands
    (slice_number j total_slices : ℕ) (image_size : ℕ × ℕ)
    (ribCenters : List (ℤ × ℤ)) (js : JitterSource)
    (hjs : js.Bounded) (hN : 0 < total_slices) (hij : slice_number ≤ j)
    (p : ℤ × ℤ) :
    inBand (region slice_number total_slices image_size ribCenters p)
      (pixelValue slice_number total_slices image_size ribCenters js p) ∧
    radius slice_number total_slices ≤ radius j total_slices ∧
    (region slice_number total_slices image_size ribCenters p = .background ↔
      ¬ inMask slice_number total_slices image_size p) ∧
    (region slice_number total_slices image_size ribCenters p = .highDensity ↔
      inMask slice_number total_slices image_size p ∧ inRibMask ribCenters p) ∧
    (region slice_number total_slices image_size ribCenters p = .inner ↔
      inMask slice_number total_slices image_size p ∧ ¬ inRibMask ribCenters p ∧
      inInnerMask slice_number total_slices image_size p) ∧
    (region slice_number total_slices image_size ribCenters p = .outer ↔
      inMask slice_number total_slices image_size p ∧ ¬ inRibMask ribCenters p ∧
      ¬ inInnerMask slice_number total_slices image_size p) := by
  obtain ⟨hInner, hOuter, hRib⟩ := hjs
  refine ⟨?_, radius_monotone _ _ _ hN hij, ?_, ?_, ?_, ?_⟩
  · by_cases hm : inMask slice_number total_slices image_size p
    · by_cases hr : inRibMask ribCenters p
      · have := hRib p
        simp only [region, pixelValue, hm, hr, not_true_eq_false, if_false,
          if_true, inBand]
        omega
      · by_cases hi : inInnerMask slice_number total_slices image_size p
        · have := hInner p
          simp only [region, pixelValue, hm, hr, hi, not_true_eq_false,
            not_false_eq_true, and_true, and_false, if_false, if_true, inBand]
          omega
        · have := hOuter p
          simp only [region, pixelValue, hm, hr, hi, not_true_eq_false,
            not_false_eq_true, and_true, and_false, true_and, if_false,
            if_true, inBand]
          omega
    · simp [region, pixelValue, hm, inBand]
  · by_cases hm : inMask slice_number total_slices image_size p
    · by_cases hr : inRibMask ribCenters p <;>
        by_cases hi : inInnerMask slice_number total_slices image_size p <;>
        simp [region, hm, hr, hi]
    · simp [region, hm]
  · by_cases hm : inMask slice_number total_slices image_size p
    · by_cases hr : inRibMask ribCenters p <;>
        by_cases hi : inInnerMask slice_number total_slices image_size p <;>
        simp [region, hm, hr, hi]
    · simp [region, hm]
  · by_cases hm : inMask slice_number total_slices image_size p
    · by_cases hr : inRibMask ribCenters p <;>
        by_cases hi : inInnerMask slice_number total_slices image_size p <;>
        simp [region, hm, hr, hi]
    · simp [region, hm]
  · by_cases hm : inMask slice_number total_slices image_size p
    · by_cases hr : inRibMask ribCenters p <;>
        by_cases hi : inInnerMask slice_number total_slices image_size p <;>
        simp [region, hm, hr, hi]
    · simp [region, hm]

/-- Claim C4, witness: the pixel `(0,0)` of an 8×8 grid in slice 1 of 2,
with one structure disk centered at `(1,2)` and zero jitter. -/
theorem C4_witness :
    (zeroJitter.Bounded ∧ 0 < 2 ∧ 1 ≤ 2) ∧
    (inBand (region 1 2 (8, 8) [(1, 2)] (0, 0))
        (pixelValue 1 2 (8, 8) [(1, 2)] zeroJitter (0, 0)) ∧
      radius 1 2 ≤ radius 2 2 ∧
      (region 1 2 (8, 8) [(1, 2)] (0, 0) = .background ↔
        ¬ inMask 1 2 (8, 8) (0, 0)) ∧
      (region 1 2 (8, 8) [(1, 2)] (0, 0) = .highDensity ↔
        inMask 1 2 (8, 8) (0, 0) ∧ inRibMask [(1, 2)] (0, 0)) ∧
      (region 1 2 (8, 8) [(1, 2)] (0, 0) = .inner ↔
        inMask 1 2 (8, 8) (0, 0) ∧ ¬ inRibMask [(1, 2)] (0, 0) ∧
        inInnerMask 1 2 (8, 8) (0, 0)) ∧
      (region 1 2 (8, 8) [(1, 2)] (0, 0) = .outer ↔
        inMask 1 2 (8, 8) (0, 0) ∧ ¬ inRibMask [(1, 2)] (0, 0) ∧
        ¬ inInnerMask 1 2 (8, 8) (0, 0))) :=
  ⟨⟨zeroJitter_bounded, by norm_num, by norm_num⟩,
   C4_pixel_regions_and_bands 1 2 2 (8, 8) [(1, 2)] zeroJitter
     zeroJitter_bounded (by norm_num) (by norm_num) (0, 0)⟩

/-- Claim C5, counterexample: in `create-multislice-ct.py` the all-fail run
reaches the same `warning` verdict branch as a partial-failure run — there
is no distinct total-failure verdict; the script only distinguishes
`successful == NUM_SLICES` from everything else. -/
theorem C5_counterexample_no_total_failure_verdict :
    mainLoop (fun _ => false) 5 = (0, 5) ∧
    ctVerdict 5 0 = .warning ∧
    ctVerdict 5 3 = .warning ∧
    ctVerdict 5 0 = ctVerdict 5 3 := by
  refine ⟨by decide, rfl, ?_, ?_⟩ <;> decide

/-- Claim C5, amended: a run in which every store call fails (exceptions are
caught inside `send_dicom_to_orthanc` and surface as `False`) still
completes the loop, yielding `successful = 0` and `failed = N`, and reaches
the warning (not-full-success) verdict — the same verdict branch used for
partial failure, since the script has no separate total-failure verdict. -/
theorem C5_all_fail_run_completes (N : ℕ) (hN : 0 < N) :
    mainLoop (fun _ => false) N = (0, N) ∧ ctVerdict N 0 = .warning := by
  refine ⟨mainLoop_all_fail N, ?_⟩
  unfold ctVerdict
  rw [if_neg (by omega : ¬ ((0 : ℕ) = N))]

/-- Claim C5, witness: the amended claim at `N = 5`. -/
theorem C5_witness :
    0 < 5 ∧
    (mainLoop (fun _ => false) 5 = (0, 5) ∧ ctVerdict 5 0 = CtVerdict.warning) :=
  ⟨by norm_num, C5_all_fail_run_completes 5 (by norm_num)⟩

/-- Claim C6, counterexample: `upload-multislice-ct.py` shows its success
banner whenever `successful >= NUM_SLICES * 0.9`, so a run with 9 of 10
items transferred — some but not all — is reported as success, refuting
"full success exactly when all N items transferred". -/
theorem C6_counterexample_success_below_full :
    uploadVerdict 10 9 = .success ∧ (9 : ℕ) ≠ 10 := by
  constructor
  · simp only [uploadVerdict]
    norm_num
  · decide

/-- Claim C6, amended: `create-multislice-ct.py` reports full success exactly
when `successful = N` and flags everything else (including 3 of 5, 60% <
90%) as a warning; `upload-multislice-ct.py` reports success exactly when
`successful ≥ 0.9 · N`, so a 90%-or-better partial run (e.g. 9 of 10) is
reported as success there, while 3 of 5 is flagged as a warning in both. -/
theorem C6_verdict_thresholds (N s : ℕ) :
    (ctVerdict N s = .fullSuccess ↔ s = N) ∧
    (uploadVerdict N s = .success ↔ (N : ℚ) * (9/10) ≤ (s : ℚ)) ∧
    ctVerdict 5 3 = .warning ∧
    uploadVerdict 5 3 = .warning ∧
    ctVerdict 10 9 = .warning ∧
    uploadVerdict 10 9 = .success := by
  refine ⟨?_, ?_, by decide, ?_, by decide, ?_⟩
  · unfold ctVerdict
    split_ifs with h <;> simp [h]
  · unfold uploadVerdict
    split_ifs with h <;> simp [h]
  · simp only [uploadVerdict]
    norm_num
  · simp only [uploadVerdict]
    norm_num

/-- Claim C7, counterexample: `create_ct_slice` draws a fresh SOP instance
UID from the generator on every call, so two successive calls with
identical exam, sub-series and ordinal arguments produce different item
identifiers — the metadata is not byte-identical across the two calls. -/
theorem C7_counterexample_fresh_item_uid :
    ((create_ct_slice 10 20 1 5 "MultiSlice^CT^Patient" 0 0).1).sopInstanceUID ≠
      ((create_ct_slice 10 20 1 5 "MultiSlice^CT^Patient"
        (create_ct_slice 10 20 1 5 "MultiSlice^CT^Patient" 0 0).2 0).1).sopInstanceUID := by
  decide

/-- Claim C7, amended: `create_ct_slice` is deterministic in its full input
(arguments plus UID-generator state plus clock); across two calls with the
same exam, sub-series and ordinal the argument-determined metadata fields
(study UID, series UID, instance number, geometry, patient name,
descriptions) are identical, but the item identifier is taken from the
generator state — not from the arguments — and the patient ID and
timestamps are taken from the clock, so successive calls differ in those
fields. -/
theorem C7_metadata_argument_determined (su se n N : ℕ) (pn : String)
    (u₁ c₁ u₂ c₂ : ℕ) :
    ((create_ct_slice su se n N pn u₁ c₁).1).studyInstanceUID =
      ((create_ct_slice su se n N pn u₂ c₂).1).studyInstanceUID ∧
    ((create_ct_slice su se n N pn u₁ c₁).1).seriesInstanceUID =
      ((create_ct_slice su se n N pn u₂ c₂).1).seriesInstanceUID ∧
    ((create_ct_slice su se n N pn u₁ c₁).1).instanceNumber =
      ((create_ct_slice su se n N pn u₂ c₂).1).instanceNumber ∧
    ((create_ct_slice su se n N pn u₁ c₁).1).geometry =
      ((create_ct_slice su se n N pn u₂ c₂).1).geometry ∧
    ((create_ct_slice su se n N pn u₁ c₁).1).patientName =
      ((create_ct_slice su se n N pn u₂ c₂).1).patientName ∧
    ((create_ct_slice su se n N pn u₁ c₁).1).studyDescription =
      ((create_ct_slice su se n N pn u₂ c₂).1).studyDescription ∧
    ((create_ct_slice su se n N pn u₁ c₁).1).sopInstanceUID = u₁ ∧
    ((create_ct_slice su se n N pn u₁ c₁).1).patientID = "CT3D" ++ toString c₁ :=
  ⟨rfl, rfl, rfl, rfl, rfl, rfl, rfl, rfl⟩

/-- Claim C8 (code bug): the exam-level fields `PatientID`, `StudyDate` and
`StudyTime` are recomputed from the wall clock inside every
`create_ct_slice` call, so two slices of one run created one second apart
(the run sleeps 0.5 s every 10 slices) share the study UID yet carry
different `PatientID`s. -/
theorem C8_patient_id_varies_within_run :
    ((create_ct_slice 10 20 1 100 "MultiSlice^CT^Patient" 0 1000).1).studyInstanceUID =
      ((create_ct_slice 10 20 11 100 "MultiSlice^CT^Patient" 2 1001).1).studyInstanceUID ∧
    ((create_ct_slice 10 20 1 100 "MultiSlice^CT^Patient" 0 1000).1).patientID ≠
      ((create_ct_slice 10 20 11 100 "MultiSlice^CT^Patient" 2 1001).1).patientID := by
  refine ⟨rfl, ?_⟩
  decide

/-- Claim C9, counterexample: for `total_slices = 1` the single slice gets
`radius = 150 + (1/1) * 50 = 200`, which is exactly the maximum of the
interpolation — not a mid-range value strictly between base and max. -/
theorem C9_counterexample_single_slice_radius_at_max :
    radius 1 1 = maxRadius ∧
    ¬ (baseRadius < radius 1 1 ∧ radius 1 1 < maxRadius) := by
  norm_num [radius, baseRadius, maxRadius]

/-- Claim C9, amended: `index = 1` and `index = totalCount` produce
non-degenerate radii (`> 0`); the radius at `index = totalCount` — and
hence the single radius of a `totalCount = 1` run — equals `maxRadius =
200`, the top of the interpolation, not a mid-range value. -/
theorem C9_radius_endpoints (N : ℕ) (hN : 0 < N) :
    0 < radius 1 N ∧ 0 < radius N N ∧ radius N N = maxRadius := by
  have hN' : (0 : ℚ) < (N : ℚ) := by exact_mod_cast hN
  have h3 : radius N N = maxRadius := by
    unfold radius maxRadius
    rw [div_self hN'.ne']
    norm_num
  refine ⟨?_, by rw [h3]; norm_num [maxRadius], h3⟩
  unfold radius
  positivity

/-- Claim C9, witness: the amended claim at `N = 4`. -/
theorem C9_witness :
    0 < 4 ∧ (0 < radius 1 4 ∧ 0 < radius 4 4 ∧ radius 4 4 = maxRadius) :=
  ⟨by norm_num, C9_radius_endpoints 4 (by norm_num)⟩

/-- Claim C10: each loop iteration increments exactly one of the two
counters, so at the end of every run `successful + failed = NUM_SLICES`. -/
theorem C10_counters_partition_attempts (storeOk : ℕ → Bool) (N : ℕ) :
    (mainLoop storeOk N).1 + (mainLoop storeOk N).2 = N := by
  induction N with
  | zero => rfl
  | succ n ih =>
    rw [mainLoop_succ]
    split_ifs with h <;> simp only [] <;> omega

end MultisliceCT
